import Mathlib

/-!
Verification of the per-file analysis core of `count_lines.py`.

The development shallowly embeds the three core functions of the source:

* `tranverse_ast_stmt` / `count_statements` — the statement-aware AST
  traversal and the statement counter built on it;
* `count_lines` — the two-pass token-stream line classifier;
* `analyze_file` — the per-file orchestrator with its error boundary.

Parsing (`ast.parse`) and lexing (`tokenize.generate_tokens`) are Python
standard-library collaborators; they are modelled as abstract oracles
(`String → Except PyExc Node`, `String → Except PyExc (List Tok)`), and
concrete claims supply the token/AST values CPython produces for the
concrete inputs in question.
-/

/-- Python exception classes that cross the boundaries of the analyzed
functions: I/O failures (`FileNotFoundError`, `OSError`), parse failure
(`SyntaxError`), lexer failure (`tokenize.TokenError`), and the defensive
`AssertionError` raised by the traversal's `assert`. -/
inductive PyExc where
  | fileNotFound
  | osError
  | syntaxError
  | tokenError
  | assertionError
deriving DecidableEq, Repr

/-- Kind of the value expression of a bare expression statement
(`ast.Expr.value`), as far as `_node_effective_count` inspects it: it only
tests membership in `(ast.Await, ast.Yield, ast.YieldFrom, ast.Call)`.
All other expression kinds behave alike and are represented by
`constant`, `name` and `otherExpr`. -/
inductive ExprK where
  | call
  | awaitExpr
  | yieldExpr
  | yieldFromExpr
  | constant
  | name
  | otherExpr
deriving DecidableEq, Repr

/-- Python statement-level AST nodes, covering exactly the shapes
`tranverse_ast_stmt` dispatches on.  Non-statement fields that the
traversal never touches (decorators, with-items, loop targets, match
subjects, …) are omitted.  `matchStmt` stands for `ast.Match`: a genuine
`ast.stmt` subclass that the traversal does not list (see the TODO in the
source); its `body` collects the statements nested in its cases.
`exprNode` stands for a node that is not an `ast.stmt` at all (e.g. a bare
`ast.expr` handed directly to the traversal). -/
inductive Node where
  | module (body : List Node)
  | functionDef (name : String) (body : List Node)
  | asyncFunctionDef (name : String) (body : List Node)
  | classDef (name : String) (body : List Node)
  | withStmt (body : List Node)
  | asyncWithStmt (body : List Node)
  | exceptHandler (body : List Node)
  | returnStmt
  | deleteStmt
  | assignStmt
  | augAssignStmt
  | raiseStmt
  | assertStmt
  | importStmt
  | importFromStmt
  | globalStmt
  | nonlocalStmt
  | passStmt
  | breakStmt
  | continueStmt
  | exprStmt (value : ExprK)
  | forStmt (body : List Node) (orelse : List Node)
  | asyncForStmt (body : List Node) (orelse : List Node)
  | whileStmt (body : List Node) (orelse : List Node)
  | ifStmt (body : List Node) (orelse : List Node)
  | tryStmt (body : List Node) (handlers : List Node) (orelse : List Node)
      (finalbody : List Node)
  | matchStmt (body : List Node)
  | exprNode

/-- Mirrors `isinstance(node, ast.stmt)`: every constructor models an
`ast.stmt` subclass except `module` (an `ast.mod`), `exceptHandler`
(an `ast.excepthandler`) and `exprNode` (an `ast.expr`). -/
def Node.is_stmt : Node → Bool
  | .module _ => false
  | .exceptHandler _ => false
  | .exprNode => false
  | _ => true

/-- The callback `_node_effective_count` defined inside `count_statements`.
The Python callback mutates the enclosing `count` and returns the
continue-traversal flag; here the running count is threaded explicitly:
the result is the updated count paired with the flag.  A compiled exclusion
regex `p` is abstracted as the matcher `p : String → Bool` standing for
`p.match(name) is not None`. -/
def node_effective_count (exclude_name_patterns : List (String → Bool))
    (count : Nat) (node : Node) : Nat × Bool :=
  let count :=
    match node with
    | .module _ => count
    | .exprStmt v =>
      match v with
      | .awaitExpr | .yieldExpr | .yieldFromExpr | .call => count + 1
      | _ => count
    | _ => count + 1
  match node with
  | .functionDef name _ | .asyncFunctionDef name _ | .classDef name _ =>
    (count, !(exclude_name_patterns.any (fun p => p name)))
  | _ => (count, true)

mutual

/-- The statement-aware traversal `tranverse_ast_stmt(node, callback)`.
The callback is state-threaded (Python mutates a nonlocal counter); the
traversal returns the final state, or `AssertionError` when the defensive
`assert isinstance(node, ast.stmt)` in the final `else` branch fails.
Unlisted statement kinds (`matchStmt`) reach that `else` branch, pass the
assertion, and end the traversal at that node. -/
def tranverse_ast_stmt (callback : Nat → Node → Nat × Bool) (s : Nat)
    (node : Node) : Except PyExc Nat :=
  let r := callback s node
  if !r.2 then
    .ok r.1
  else
    match node with
    | .module body | .withStmt body | .asyncWithStmt body | .exceptHandler body
    | .asyncFunctionDef _ body | .functionDef _ body | .classDef _ body =>
      -- visit body
      tranverse_stmts callback r.1 body
    | .returnStmt | .deleteStmt | .assignStmt | .augAssignStmt
    | .raiseStmt | .assertStmt | .importStmt | .importFromStmt
    | .globalStmt | .nonlocalStmt | .passStmt | .breakStmt | .continueStmt
    | .exprStmt _ =>
      -- end of tranverse
      .ok r.1
    | .forStmt body orelse | .asyncForStmt body orelse
    | .whileStmt body orelse | .ifStmt body orelse => do
      -- visit body and orelse
      let s1 ← tranverse_stmts callback r.1 body
      tranverse_stmts callback s1 orelse
    | .tryStmt body handlers orelse finalbody => do
      -- visit body, excepthandler, orelse, finalbody
      let s1 ← tranverse_stmts callback r.1 body
      let s2 ← tranverse_stmts callback s1 handlers
      let s3 ← tranverse_stmts callback s2 orelse
      tranverse_stmts callback s3 finalbody
    | .matchStmt _ =>
      -- assert isinstance(node, ast.stmt) succeeds: ast.Match is a statement
      .ok r.1
    | .exprNode =>
      -- assert isinstance(node, ast.stmt) fails
      .error .assertionError

/-- Sequential traversal of a statement list (the `for stmt in ...:` loops
inside `tranverse_ast_stmt`), threading the callback state left to right. -/
def tranverse_stmts (callback : Nat → Node → Nat × Bool) (s : Nat)
    (stmts : List Node) : Except PyExc Nat :=
  match stmts with
  | [] => .ok s
  | stmt :: rest => do
    let s1 ← tranverse_ast_stmt callback s stmt
    tranverse_stmts callback s1 rest

end

/-- The body of `count_statements` after `ast.parse`: run the traversal
with `_node_effective_count` from count `0` on the parsed root. -/
def count_statements_ast (root_node : Node)
    (exclude_name_patterns : List (String → Bool)) : Except PyExc Nat :=
  tranverse_ast_stmt (node_effective_count exclude_name_patterns) 0 root_node

/-- `count_statements(source_code, exclude_name_patterns)`: parse the
source (via the external `ast.parse`, abstracted as the `parse` oracle,
whose `SyntaxError` propagates) and traverse counting effective
statements. -/
def count_statements (parse : String → Except PyExc Node)
    (source_code : String)
    (exclude_name_patterns : List (String → Bool)) : Except PyExc Nat := do
  let root_node ← parse source_code
  count_statements_ast root_node exclude_name_patterns

/-- Token kinds `count_lines` distinguishes.  The first six are the purely
structural kinds skipped by the first pass (`ENCODING`, `ENDMARKER`,
`NEWLINE`, `INDENT`, `DEDENT`, `NL`); `comment` and `typeComment` are
`COMMENT`/`TYPE_COMMENT`; `string` is `STRING`; `other` stands for every
remaining meaningful kind (`NAME`, `OP`, `NUMBER`, …). -/
inductive TokType where
  | encoding
  | endmarker
  | newline
  | indent
  | dedent
  | nl
  | comment
  | typeComment
  | string
  | other
deriving DecidableEq, Repr

/-- A `tokenize.TokenInfo` as far as `count_lines` reads it: the kind, the
starting physical line `t.start[0]`, the ending physical line `t.end[0]`
(both 1-based, inclusive), and the `t.line` attribute.  For a token that
spans several physical lines CPython sets `t.line` to the concatenation of
all the physical lines the token spans (`contline + line` in
`tokenize._tokenize`), not just the starting line. -/
structure Tok where
  type : TokType
  startLine : Nat
  endLine : Nat
  line : String
deriving DecidableEq, Repr

/-- Number of physical lines of the raw text, as computed by
`len(io.StringIO(source_code).readlines())`: one line per `'\n'`
terminator, plus a final unterminated line when the text does not end in a
newline.  (The embedding treats `'\n'` as the line separator.) -/
def num_lines (source_code : String) : Nat :=
  let nl := (source_code.data.filter (fun c => c = '\n')).length
  match source_code.data.getLast? with
  | none => 0
  | some c => if c = '\n' then nl else nl + 1

/-- The inclusive line span of a token:
`range(t.start[0], t.end[0] + 1)` as a set. -/
def line_range (t : Tok) : Finset Nat := Finset.Icc t.startLine t.endLine

/-- One step of the first pass over the token stream.  The accumulator is
`(nonblank_lines, inline_comment_lines)`.  Structural tokens are skipped;
comment tokens mark their span in both sets; string tokens are deferred to
the second pass; any other token marks its span nonblank. -/
def first_pass_step (acc : Finset Nat × Finset Nat) (t : Tok) :
    Finset Nat × Finset Nat :=
  match t.type with
  | .encoding | .endmarker | .newline | .indent | .dedent | .nl => acc
  | .comment | .typeComment => (acc.1 ∪ line_range t, acc.2 ∪ line_range t)
  | .string => acc
  | .other => (acc.1 ∪ line_range t, acc.2)

/-- The first `for t in tokens:` loop of `count_lines`, producing
`(nonblank_lines, inline_comment_lines)` from empty sets. -/
def first_pass (tokens : List Tok) : Finset Nat × Finset Nat :=
  tokens.foldl first_pass_step (∅, ∅)

/-- Removes every `'\n'`, `' '`, `'\t'` and `'\r'` from the string: the
chain `line.replace("\n", "").replace(" ", "").replace("\t", "")
.replace("\r", "")` (replacing single characters by the empty string
deletes all their occurrences). -/
def strip_ws (line : String) : String :=
  String.mk (line.data.filter
    (fun c => c != '\n' && c != ' ' && c != '\t' && c != '\r'))

/-- Mirrors `line.startswith(d)` for the three-character delimiters used
by `count_lines`: the first three characters all equal `c`. -/
def starts_with_triple (s : String) (c : Char) : Bool :=
  s.data.take 3 == [c, c, c]

/-- Mirrors `line.endswith(d)` for the three-character delimiters used by
`count_lines`: the last three characters all equal `c`. -/
def ends_with_triple (s : String) (c : Char) : Bool :=
  s.data.reverse.take 3 == [c, c, c]

/-- The block-comment test of the second pass: after stripping all
whitespace from `line`, it both starts and ends with `'''`, or both starts
and ends with `\x22\x22\x22`. -/
def is_block_comment_line (line : String) : Bool :=
  let l := strip_ws line
  (starts_with_triple l '\'' && ends_with_triple l '\'') ||
    (starts_with_triple l '"' && ends_with_triple l '"')

/-- The inner `for lineno in range(t.start[0], t.end[0] + 1):` loop of the
second pass: each line of the span that is not yet nonblank is added to
the block-comment set and to the nonblank set.  The accumulator is
`(nonblank_lines, block_comment_lines)`. -/
def add_block_lines (acc : Finset Nat × Finset Nat) :
    List Nat → Finset Nat × Finset Nat
  | [] => acc
  | lineno :: rest =>
    if lineno ∈ acc.1 then add_block_lines acc rest
    else add_block_lines (insert lineno acc.1, insert lineno acc.2) rest

/-- One step of the second pass: a `STRING` token whose whitespace-stripped
`t.line` attribute passes the triple-quote test contributes its span's
not-yet-nonblank lines to both sets; every other token contributes
nothing. -/
def second_pass_step (acc : Finset Nat × Finset Nat) (t : Tok) :
    Finset Nat × Finset Nat :=
  if t.type = TokType.string then
    if is_block_comment_line t.line then
      add_block_lines acc (List.range' t.startLine (t.endLine + 1 - t.startLine))
    else acc
  else acc

/-- The second `for t in tokens:` loop of `count_lines`, producing the
final `(nonblank_lines, block_comment_lines)` from the first pass's
nonblank set and an empty block-comment set. -/
def second_pass (tokens : List Tok) (nonblank_lines : Finset Nat) :
    Finset Nat × Finset Nat :=
  tokens.foldl second_pass_step (nonblank_lines, ∅)

/-- `count_lines(source_code)`, with the token stream produced by the
external `tokenize.generate_tokens` supplied explicitly.  Returns
`(#line, #nonblank_line, #commented_line)` where the commented count is
the size of the union of inline-comment and block-comment line sets. -/
def count_lines (source_code : String) (tokens : List Tok) :
    Nat × Nat × Nat :=
  let p1 := first_pass tokens
  let p2 := second_pass tokens p1.1
  (num_lines source_code, p2.1.card, (p1.2 ∪ p2.2).card)

/-- The CPython token stream of the source
`"# comment\n\n\x22\x22\x22\nblock\n\x22\x22\x22\n"`: a `COMMENT` on line
1, `NL` twice, the triple-quoted `STRING` spanning lines 3–5 (its `line`
attribute holding all three physical lines), `NEWLINE`, `ENDMARKER`. -/
def scenario_tokens : List Tok :=
  [ ⟨.comment, 1, 1, "# comment\n"⟩,
    ⟨.nl, 1, 1, "# comment\n"⟩,
    ⟨.nl, 2, 2, "\n"⟩,
    ⟨.string, 3, 5, "\"\"\"\nblock\n\"\"\"\n"⟩,
    ⟨.newline, 5, 5, "\"\"\"\n"⟩,
    ⟨.endmarker, 6, 6, ""⟩ ]

/-- The source text of the end-to-end scenario of the spec. -/
def scenario_source : String := "# comment\n\n\"\"\"\nblock\n\"\"\"\n"

/-- Splits a text into its physical lines, each keeping its terminating
`'\n'`; a trailing unterminated fragment forms a final line.  The first
argument accumulates the current line's characters in reverse. -/
def split_lines_aux (acc : List Char) : List Char → List String
  | [] => if acc.isEmpty then [] else [String.mk acc.reverse]
  | c :: rest =>
    if c = '\n' then
      String.mk (acc.reverse ++ ['\n']) :: split_lines_aux [] rest
    else
      split_lines_aux (c :: acc) rest

/-- The physical lines of a source text, terminators kept. -/
def split_lines (source_code : String) : List String :=
  split_lines_aux [] source_code.data

/-- The `k`-th (1-based) physical line of the source text, the empty
string when out of range. -/
def get_line (source_code : String) (k : Nat) : String :=
  (split_lines source_code).getD (k - 1) ""

/-- Modelled from the spec's words (§4.2 step 4): the second-pass step as
the spec describes it, testing the whitespace-stripped *starting source
line* of the string token (`get_line source t.start[0]`) instead of the
token's `line` attribute.  Used to compare the spec's reading against the
code's behavior. -/
def second_pass_step_by_start_line (source_code : String)
    (acc : Finset Nat × Finset Nat) (t : Tok) : Finset Nat × Finset Nat :=
  if t.type = TokType.string then
    if is_block_comment_line (get_line source_code t.startLine) then
      add_block_lines acc (List.range' t.startLine (t.endLine + 1 - t.startLine))
    else acc
  else acc

/-- Modelled from the spec's words: `count_lines` with the second pass
classifying string tokens by their starting source line, as §4.2 step 4
states, rather than by the token's `line` attribute. -/
def count_lines_by_start_line (source_code : String) (tokens : List Tok) :
    Nat × Nat × Nat :=
  let p1 := first_pass tokens
  let p2 := tokens.foldl (second_pass_step_by_start_line source_code) (p1.1, ∅)
  (num_lines source_code, p2.1.card, (p1.2 ∪ p2.2).card)

/-- A multi-line string statement whose opening line carries text after
the delimiter: `\x22\x22\x22abc` on line 1, `def\x22\x22\x22` on line 2. -/
def span_source : String := "\"\"\"abc\ndef\"\"\"\n"

/-- The CPython token stream of `span_source`: the `STRING` spans lines
1–2 and its `line` attribute is the concatenation of both physical lines,
then `NEWLINE` and `ENDMARKER`. -/
def span_tokens : List Tok :=
  [ ⟨.string, 1, 2, "\"\"\"abc\ndef\"\"\"\n"⟩,
    ⟨.newline, 2, 2, "\"\"\"abc\ndef\"\"\"\n"⟩,
    ⟨.endmarker, 3, 3, ""⟩ ]

/-- The advisory log messages `analyze_file` can emit via
`logging.info`. -/
inductive LogMsg where
  | failed_to_open
  | file_has_syntax_error
deriving DecidableEq, Repr

/-- `analyze_file(path, exclude_name_patterns)`.  The external effects are
abstracted: `read_result` is the outcome of `open(path).read()` (an I/O
exception or the text), and `parse`/`tokenize` are the stdlib oracles used
by `count_statements` and `count_lines`.  The `try` block runs
`count_statements` then `count_lines`; `FileNotFoundError`/`OSError` and
`SyntaxError`/`TokenError` are converted to `None` plus an advisory log
entry, every other exception (notably `AssertionError`) propagates.
On success the full 4-tuple
`(num_line, num_nonblank_line, num_statement, num_commented_line)` is
returned with no log entry. -/
def analyze_file (read_result : Except PyExc String)
    (parse : String → Except PyExc Node)
    (tokenize : String → Except PyExc (List Tok))
    (exclude_name_patterns : List (String → Bool)) :
    Except PyExc (Option (Nat × Nat × Nat × Nat) × List LogMsg) :=
  let attempt : Except PyExc (Nat × Nat × Nat × Nat) := do
    let source_code ← read_result
    let num_statement ← count_statements parse source_code exclude_name_patterns
    let toks ← tokenize source_code
    let r := count_lines source_code toks
    pure (r.1, r.2.1, num_statement, r.2.2)
  match attempt with
  | .ok r => .ok (some r, [])
  | .error e =>
    if e = PyExc.fileNotFound ∨ e = PyExc.osError then
      .ok (none, [LogMsg.failed_to_open])
    else if e = PyExc.syntaxError ∨ e = PyExc.tokenError then
      .ok (none, [LogMsg.file_has_syntax_error])
    else
      .error e

/-- The parse oracle for the empty source: `ast.parse("")` yields a module
with an empty body. -/
def empty_parse : String → Except PyExc Node :=
  fun _ => .ok (Node.module [])

/-- The CPython token stream of the empty source: an implicit `NEWLINE`
then `ENDMARKER`, both structural. -/
def empty_tokens : List Tok :=
  [⟨.newline, 1, 1, ""⟩, ⟨.endmarker, 2, 2, ""⟩]

section ExceptLemmas

variable {ε α β : Type}

@[simp] theorem except_map_ok (f : α → β) (a : α) :
    Except.map f (Except.ok a : Except ε α) = Except.ok (f a) := rfl

@[simp] theorem except_map_error (f : α → β) (e : ε) :
    Except.map f (Except.error e : Except ε α) = Except.error e := rfl

@[simp] theorem except_bind_ok (a : α) (f : α → Except ε β) :
    Bind.bind (Except.ok a) f = f a := rfl

@[simp] theorem except_bind_error (e : ε) (f : α → Except ε β) :
    Bind.bind (Except.error e : Except ε α) f = Except.error e := rfl

end ExceptLemmas

/-- The callback threads its count additively: running it from count `s`
yields `s` plus what it yields from count `0`, with the same
continue-flag. -/
theorem node_effective_count_shift (pats : List (String → Bool)) (s : Nat) :
    ∀ node : Node,
      node_effective_count pats s node
        = (s + (node_effective_count pats 0 node).1,
           (node_effective_count pats 0 node).2)
  | .module body => by simp [node_effective_count]
  | .functionDef name body | .asyncFunctionDef name body
  | .classDef name body => by simp [node_effective_count]
  | .withStmt body | .asyncWithStmt body | .exceptHandler body
  | .matchStmt body => by simp [node_effective_count]
  | .returnStmt | .deleteStmt | .assignStmt | .augAssignStmt
  | .raiseStmt | .assertStmt | .importStmt | .importFromStmt
  | .globalStmt | .nonlocalStmt | .passStmt | .breakStmt
  | .continueStmt | .exprNode => by simp [node_effective_count]
  | .forStmt body orelse | .asyncForStmt body orelse
  | .whileStmt body orelse | .ifStmt body orelse => by
      simp [node_effective_count]
  | .tryStmt body handlers orelse finalbody => by
      simp [node_effective_count]
  | .exprStmt v => by cases v <;> simp [node_effective_count]

/-- Tokens skipped by the first pass: the purely structural kinds. -/
def structural (t : Tok) : Bool :=
  match t.type with
  | .encoding | .endmarker | .newline | .indent | .dedent | .nl => true
  | .comment | .typeComment | .string | .other => false

/-- Closed form of the inner second-pass loop: it adds to both sets
exactly the listed lines that are not already nonblank. -/
theorem add_block_lines_eq (l : List Nat) :
    ∀ nb bc : Finset Nat,
      add_block_lines (nb, bc) l
        = (nb ∪ (l.toFinset \ nb), bc ∪ (l.toFinset \ nb)) := by
  induction l with
  | nil => intro nb bc; simp [add_block_lines]
  | cons x xs ih =>
      intro nb bc
      by_cases hx : x ∈ nb
      · have h1 : (insert x xs.toFinset) \ nb = xs.toFinset \ nb := by
          ext y
          simp only [Finset.mem_sdiff, Finset.mem_insert]
          constructor
          · rintro ⟨hy | hy, hn⟩
            · exact absurd (hy ▸ hx) hn
            · exact ⟨hy, hn⟩
          · rintro ⟨hy, hn⟩
            exact ⟨Or.inr hy, hn⟩
        simp only [add_block_lines, hx, if_true, List.toFinset_cons, h1, ih]
      · have h1 : insert x nb ∪ xs.toFinset \ insert x nb
            = nb ∪ (insert x xs.toFinset) \ nb := by
          ext y
          simp only [Finset.mem_union, Finset.mem_sdiff, Finset.mem_insert]
          by_cases hyx : y = x
          · subst hyx; simp [hx]
          · simp only [hyx, false_or]
            try tauto
        have h2 : insert x bc ∪ xs.toFinset \ insert x nb
            = bc ∪ (insert x xs.toFinset) \ nb := by
          ext y
          simp only [Finset.mem_union, Finset.mem_sdiff, Finset.mem_insert]
          by_cases hyx : y = x
          · subst hyx; simp [hx]
          · simp only [hyx, false_or]
            try tauto
        simp only [add_block_lines, hx, if_false, List.toFinset_cons, ih,
          h1, h2]

/-- The line list of the inner loop, as a set, is the token's line span. -/
theorem range'_span_toFinset (a b : Nat) :
    (List.range' a (b + 1 - a)).toFinset = Finset.Icc a b := by
  ext x
  simp only [List.mem_toFinset, List.mem_range'_1, Finset.mem_Icc]
  omega

/-- Characterization of one second-pass step: a string token whose
whitespace-stripped `line` attribute passes the triple-quote test adds
exactly its span's not-yet-nonblank lines to both the nonblank and the
block-comment set; every other token changes nothing. -/
theorem second_pass_step_eq (nb bc : Finset Nat) (t : Tok) :
    second_pass_step (nb, bc) t
      = if t.type = TokType.string ∧ is_block_comment_line t.line = true then
          (nb ∪ (line_range t \ nb), bc ∪ (line_range t \ nb))
        else (nb, bc) := by
  unfold second_pass_step
  by_cases h1 : t.type = TokType.string
  · by_cases h2 : is_block_comment_line t.line = true
    · simp only [h1, h2, if_true, and_self]
      rw [add_block_lines_eq, range'_span_toFinset]
      rfl
    · simp [h1, h2]
  · simp [h1]

/-- First-pass fold invariant: the inline-comment set stays inside the
nonblank set, and the nonblank set stays inside any set `S` containing
the line span of every non-structural token. -/
theorem first_pass_fold_invariant (S : Finset Nat) :
    ∀ (ts : List Tok) (nb il : Finset Nat),
      (∀ t ∈ ts, structural t = false → line_range t ⊆ S) →
      il ⊆ nb → nb ⊆ S →
      (ts.foldl first_pass_step (nb, il)).2 ⊆ (ts.foldl first_pass_step (nb, il)).1
        ∧ (ts.foldl first_pass_step (nb, il)).1 ⊆ S := by
  intro ts
  induction ts with
  | nil => intro nb il _ h1 h2; exact ⟨h1, h2⟩
  | cons t ts ih =>
      intro nb il hS h1 h2
      have hS' : ∀ u ∈ ts, structural u = false → line_range u ⊆ S :=
        fun u hu => hS u (List.mem_cons_of_mem t hu)
      have hstep : first_pass_step (nb, il) t
          = (nb, il)
            ∨ (structural t = false
              ∧ (first_pass_step (nb, il) t
                  = (nb ∪ line_range t, il ∪ line_range t)
                ∨ first_pass_step (nb, il) t = (nb ∪ line_range t, il))) := by
        cases h : t.type <;> simp [first_pass_step, structural, h]
      simp only [List.foldl_cons]
      rcases hstep with h | ⟨hns, h | h⟩
      · rw [h]; exact ih nb il hS' h1 h2
      · rw [h]
        have hr : line_range t ⊆ S := hS t (List.mem_cons_self t ts) hns
        exact ih _ _ hS' (Finset.union_subset_union h1 subset_rfl)
          (Finset.union_subset h2 hr)
      · rw [h]
        have hr : line_range t ⊆ S := hS t (List.mem_cons_self t ts) hns
        exact ih _ _ hS' (h1.trans Finset.subset_union_left)
          (Finset.union_subset h2 hr)

/-- Second-pass fold invariant: the block-comment set stays inside the
nonblank set, the nonblank set stays inside `S`, and the nonblank set
only grows. -/
theorem second_pass_fold_invariant (S : Finset Nat) :
    ∀ (ts : List Tok) (nb bc : Finset Nat),
      (∀ t ∈ ts, structural t = false → line_range t ⊆ S) →
      bc ⊆ nb → nb ⊆ S →
      (ts.foldl second_pass_step (nb, bc)).2 ⊆ (ts.foldl second_pass_step (nb, bc)).1
        ∧ (ts.foldl second_pass_step (nb, bc)).1 ⊆ S
        ∧ nb ⊆ (ts.foldl second_pass_step (nb, bc)).1 := by
  intro ts
  induction ts with
  | nil => intro nb bc _ h1 h2; exact ⟨h1, h2, subset_rfl⟩
  | cons t ts ih =>
      intro nb bc hS h1 h2
      have hS' : ∀ u ∈ ts, structural u = false → line_range u ⊆ S :=
        fun u hu => hS u (List.mem_cons_of_mem t hu)
      simp only [List.foldl_cons]
      rw [second_pass_step_eq]
      by_cases hc : t.type = TokType.string ∧ is_block_comment_line t.line = true
      · have hns : structural t = false := by
          simp [structural, hc.1]
        have hr : line_range t ⊆ S := hS t (List.mem_cons_self t ts) hns
        have hD : line_range t \ nb ⊆ S := (Finset.sdiff_subset).trans hr
        rw [if_pos hc]
        have := ih (nb ∪ (line_range t \ nb)) (bc ∪ (line_range t \ nb)) hS'
          (Finset.union_subset_union h1 subset_rfl)
          (Finset.union_subset h2 hD)
        exact ⟨this.1, this.2.1, Finset.subset_union_left.trans this.2.2⟩
      · rw [if_neg hc]
        exact ih nb bc hS' h1 h2

mutual

/-- The traversal with `_node_effective_count` threads the running count
additively: starting it at count `s` produces `s` plus the count it
produces from `0` (and the same failure behavior). -/
theorem tranverse_shift (pats : List (String → Bool)) (s : Nat) :
    ∀ node : Node,
      tranverse_ast_stmt (node_effective_count pats) s node
        = Except.map (fun c => s + c)
            (tranverse_ast_stmt (node_effective_count pats) 0 node)
  | .module body => tranverse_stmts_shift pats s body
  | .returnStmt | .deleteStmt | .assignStmt | .augAssignStmt
  | .raiseStmt | .assertStmt | .importStmt | .importFromStmt
  | .globalStmt | .nonlocalStmt | .passStmt | .breakStmt
  | .continueStmt | .exprNode => rfl
  | .matchStmt body => rfl
  | .exprStmt v => by cases v <;> rfl
  | .withStmt body | .asyncWithStmt body | .exceptHandler body => by
      show tranverse_stmts (node_effective_count pats) (s + 1) body
          = Except.map (fun c => s + c)
              (tranverse_stmts (node_effective_count pats) 1 body)
      rw [tranverse_stmts_shift pats (s + 1) body,
        tranverse_stmts_shift pats 1 body]
      cases tranverse_stmts (node_effective_count pats) 0 body <;>
        simp <;> omega
  | .functionDef name body | .asyncFunctionDef name body
  | .classDef name body => by
      cases hm : pats.any (fun p => p name) with
      | true =>
          simp [tranverse_ast_stmt, node_effective_count, hm]
      | false =>
          simp only [tranverse_ast_stmt, node_effective_count, hm]
          simp only [Bool.not_false, Bool.not_true, if_false, if_true,
            Bool.false_eq_true, Nat.zero_add]
          rw [tranverse_stmts_shift pats (s + 1) body,
            tranverse_stmts_shift pats 1 body]
          cases tranverse_stmts (node_effective_count pats) 0 body <;>
            simp <;> omega
  | .forStmt body orelse | .asyncForStmt body orelse
  | .whileStmt body orelse | .ifStmt body orelse => by
      show (do
            let s1 ← tranverse_stmts (node_effective_count pats) (s + 1) body
            tranverse_stmts (node_effective_count pats) s1 orelse)
          = Except.map (fun c => s + c) (do
            let s1 ← tranverse_stmts (node_effective_count pats) 1 body
            tranverse_stmts (node_effective_count pats) s1 orelse)
      rw [tranverse_stmts_shift pats (s + 1) body,
        tranverse_stmts_shift pats 1 body]
      cases tranverse_stmts (node_effective_count pats) 0 body with
      | error e => simp
      | ok c1 =>
          simp only [except_map_ok, except_bind_ok]
          rw [tranverse_stmts_shift pats (s + 1 + c1) orelse,
            tranverse_stmts_shift pats (1 + c1) orelse]
          cases tranverse_stmts (node_effective_count pats) 0 orelse <;>
            simp <;> omega
  | .tryStmt body handlers orelse finalbody => by
      show (do
            let s1 ← tranverse_stmts (node_effective_count pats) (s + 1) body
            let s2 ← tranverse_stmts (node_effective_count pats) s1 handlers
            let s3 ← tranverse_stmts (node_effective_count pats) s2 orelse
            tranverse_stmts (node_effective_count pats) s3 finalbody)
          = Except.map (fun c => s + c) (do
            let s1 ← tranverse_stmts (node_effective_count pats) 1 body
            let s2 ← tranverse_stmts (node_effective_count pats) s1 handlers
            let s3 ← tranverse_stmts (node_effective_count pats) s2 orelse
            tranverse_stmts (node_effective_count pats) s3 finalbody)
      rw [tranverse_stmts_shift pats (s + 1) body,
        tranverse_stmts_shift pats 1 body]
      cases tranverse_stmts (node_effective_count pats) 0 body with
      | error e => simp
      | ok c1 =>
          simp only [except_map_ok, except_bind_ok]
          rw [tranverse_stmts_shift pats (s + 1 + c1) handlers,
            tranverse_stmts_shift pats (1 + c1) handlers]
          cases tranverse_stmts (node_effective_count pats) 0 handlers with
          | error e => simp
          | ok c2 =>
              simp only [except_map_ok, except_bind_ok]
              rw [tranverse_stmts_shift pats (s + 1 + c1 + c2) orelse,
                tranverse_stmts_shift pats (1 + c1 + c2) orelse]
              cases tranverse_stmts (node_effective_count pats) 0 orelse with
              | error e => simp
              | ok c3 =>
                  simp only [except_map_ok, except_bind_ok]
                  rw [tranverse_stmts_shift pats (s + 1 + c1 + c2 + c3)
                      finalbody,
                    tranverse_stmts_shift pats (1 + c1 + c2 + c3) finalbody]
                  cases tranverse_stmts (node_effective_count pats) 0
                      finalbody <;>
                    simp <;> omega

/-- Statement-list traversal threads the running count additively. -/
theorem tranverse_stmts_shift (pats : List (String → Bool)) (s : Nat) :
    ∀ stmts : List Node,
      tranverse_stmts (node_effective_count pats) s stmts
        = Except.map (fun c => s + c)
            (tranverse_stmts (node_effective_count pats) 0 stmts)
  | [] => rfl
  | x :: xs => by
      show (do
            let s1 ← tranverse_ast_stmt (node_effective_count pats) s x
            tranverse_stmts (node_effective_count pats) s1 xs)
          = Except.map (fun c => s + c) (do
            let s1 ← tranverse_ast_stmt (node_effective_count pats) 0 x
            tranverse_stmts (node_effective_count pats) s1 xs)
      rw [tranverse_shift pats s x]
      cases tranverse_ast_stmt (node_effective_count pats) 0 x with
      | error e => simp
      | ok c =>
          simp only [except_map_ok, except_bind_ok]
          rw [tranverse_stmts_shift pats (s + c) xs,
            tranverse_stmts_shift pats c xs]
          cases tranverse_stmts (node_effective_count pats) 0 xs <;>
            simp <;> omega

end

/-- C1 counterexample: context-manager blocks and exception-handler blocks
do NOT contribute 0 to the statement count.  In `_node_effective_count`
they fall into the final `else` branch and contribute 1 each, so the
two-statement source `with x:\n    pass` counts 2 statements, not 1. -/
theorem C1_container_contribution_counterexample :
    (node_effective_count [] 0 (Node.withStmt [Node.passStmt])).1 ≠ 0
      ∧ (node_effective_count [] 0 (Node.withStmt [Node.passStmt])).1 = 1
      ∧ (node_effective_count [] 0 (Node.asyncWithStmt [Node.passStmt])).1 = 1
      ∧ (node_effective_count [] 0 (Node.exceptHandler [Node.passStmt])).1 = 1
      ∧ count_statements
          (fun _ => Except.ok (Node.module [Node.withStmt [Node.passStmt]]))
          "with x:\n    pass\n" []
        = Except.ok 2 := by
  refine ⟨by decide, rfl, rfl, rfl, rfl⟩

/-- C1 (amended): in `count_statements`, the own contribution of each
container node is: the module root contributes 0; `with`/`async with`
blocks and exception-handler blocks each contribute exactly 1, the same
as function, async-function and class definitions, which also contribute
exactly 1 each (the same as a simple statement). -/
theorem C1_container_own_contribution (pats : List (String → Bool))
    (c : Nat) :
    (∀ body, (node_effective_count pats c (Node.module body)).1 = c)
      ∧ (∀ body, (node_effective_count pats c (Node.withStmt body)).1 = c + 1)
      ∧ (∀ body,
          (node_effective_count pats c (Node.asyncWithStmt body)).1 = c + 1)
      ∧ (∀ body,
          (node_effective_count pats c (Node.exceptHandler body)).1 = c + 1)
      ∧ (∀ name body,
          (node_effective_count pats c (Node.functionDef name body)).1 = c + 1)
      ∧ (∀ name body,
          (node_effective_count pats c (Node.asyncFunctionDef name body)).1
            = c + 1)
      ∧ (∀ name body,
          (node_effective_count pats c (Node.classDef name body)).1 = c + 1) :=
  ⟨fun _ => rfl, fun _ => rfl, fun _ => rfl, fun _ => rfl,
    fun _ _ => rfl, fun _ _ => rfl, fun _ _ => rfl⟩

/-- C2: a function definition whose name matches an exclusion pattern is
itself counted as 1 and its body is not descended into (whatever the body
holds), while a sibling definition with a non-matching name is counted as
1 plus the full count of its body; for a module holding exactly these two
definitions the total is `2 + c2` where `c2` is the count of the
non-excluded body. -/
theorem C2_exclusion_rule (pats : List (String → Bool)) (n1 n2 : String)
    (b1 b2 : List Node) (parse : String → Except PyExc Node) (src : String)
    (c2 : Nat)
    (h1 : pats.any (fun p => p n1) = true)
    (h2 : pats.any (fun p => p n2) = false)
    (hp : parse src
      = Except.ok (Node.module
          [Node.functionDef n1 b1, Node.functionDef n2 b2]))
    (hb : tranverse_stmts (node_effective_count pats) 0 b2 = Except.ok c2) :
    count_statements parse src pats = Except.ok (2 + c2) := by
  unfold count_statements
  rw [hp]
  simp only [except_bind_ok]
  show tranverse_stmts (node_effective_count pats) 0
      [Node.functionDef n1 b1, Node.functionDef n2 b2] = Except.ok (2 + c2)
  simp only [tranverse_stmts, tranverse_ast_stmt, node_effective_count, h1,
    h2, Bool.not_true, Bool.not_false, Bool.false_eq_true, if_false, if_true,
    except_bind_ok, Nat.zero_add]
  rw [tranverse_stmts_shift pats 2 b2, hb]
  rfl

/-- Witness for C2 at a concrete input: a module with an excluded
`test_a` (body of two statements, not counted) and a kept `b` (body of
two statements, counted) totals 4 statements. -/
theorem C2_exclusion_rule_witness :
    count_statements
      (fun _ => Except.ok (Node.module
        [Node.functionDef "test_a" [Node.assignStmt, Node.returnStmt],
         Node.functionDef "b" [Node.assignStmt, Node.returnStmt]]))
      "src" [fun n => n == "test_a"]
      = Except.ok 4 :=
  C2_exclusion_rule [fun n => n == "test_a"] "test_a" "b"
    [Node.assignStmt, Node.returnStmt] [Node.assignStmt, Node.returnStmt]
    (fun _ => Except.ok (Node.module
      [Node.functionDef "test_a" [Node.assignStmt, Node.returnStmt],
       Node.functionDef "b" [Node.assignStmt, Node.returnStmt]]))
    "src" 2 rfl rfl rfl rfl

/-- C3: a bare expression statement contributes 1 to the statement count
exactly when its value is a call, await, yield or yield-from expression,
and 0 otherwise (e.g. a standalone literal or name); correspondingly a
module holding just that statement counts 1 or 0. -/
theorem C3_expr_statement_contribution (pats : List (String → Bool))
    (c : Nat) (v : ExprK) :
    (node_effective_count pats c (Node.exprStmt v)).1
        = (if v = ExprK.call ∨ v = ExprK.awaitExpr ∨ v = ExprK.yieldExpr
              ∨ v = ExprK.yieldFromExpr then c + 1 else c)
      ∧ count_statements_ast (Node.module [Node.exprStmt v]) pats
        = Except.ok
            (if v = ExprK.call ∨ v = ExprK.awaitExpr ∨ v = ExprK.yieldExpr
              ∨ v = ExprK.yieldFromExpr then 1 else 0) := by
  refine ⟨?_, ?_⟩ <;>
    cases v <;>
      simp [node_effective_count, count_statements_ast, tranverse_ast_stmt,
        tranverse_stmts]

/-- C4 counterexample: the second pass does not classify a string token by
its starting source line alone.  For the source whose only statement is
the two-line string `"""abc` / `def"""`, the starting line stripped of
whitespace is `"""abc`, which does not end with the delimiter, so under
the claim no line would be added; but the code tests the token's `line`
attribute — the whole two-line span, stripping to `"""abcdef"""` — and
adds both lines to the nonblank and block-comment sets. -/
theorem C4_start_line_counterexample :
    count_lines span_source span_tokens = (2, 2, 2)
      ∧ count_lines_by_start_line span_source span_tokens = (2, 0, 0)
      ∧ is_block_comment_line (get_line span_source 1) = false
      ∧ is_block_comment_line "\"\"\"abc\ndef\"\"\"\n" = true := by
  refine ⟨by decide, by decide, by decide, by decide⟩

/-- C4 (amended): a string token is classified as a block comment by
inspecting, with all whitespace stripped, the token's `line` attribute —
the concatenation of every physical line the token spans (equal to the
starting line only for single-line tokens); exactly when that stripped
text both starts and ends with the same triple-quote delimiter, every
line of the token's span not already in the nonblank set is added to both
the nonblank set and the block-comment set, and otherwise no line is
added for that token. -/
theorem C4_block_comment_classification (t : Tok) (nb bc : Finset Nat) :
    second_pass_step (nb, bc) t
      = if t.type = TokType.string ∧ is_block_comment_line t.line = true then
          (nb ∪ (line_range t \ nb), bc ∪ (line_range t \ nb))
        else (nb, bc) :=
  second_pass_step_eq nb bc t

/-- C5: whenever every non-structural token of the stream lies within the
source's physical lines (as the CPython tokenizer guarantees), the triple
returned by `count_lines` satisfies
`total_lines ≥ nonblank_lines ≥ commented_lines ≥ 0`, the commented count
being the size of the union of the inline-comment and block-comment
sets. -/
theorem C5_metric_inequalities (source_code : String) (tokens : List Tok)
    (h : ∀ t ∈ tokens, structural t = false →
      1 ≤ t.startLine ∧ t.endLine ≤ num_lines source_code) :
    0 ≤ (count_lines source_code tokens).2.2
      ∧ (count_lines source_code tokens).2.2
        ≤ (count_lines source_code tokens).2.1
      ∧ (count_lines source_code tokens).2.1
        ≤ (count_lines source_code tokens).1 := by
  have hS : ∀ t ∈ tokens, structural t = false →
      line_range t ⊆ Finset.Icc 1 (num_lines source_code) := by
    intro t ht hns
    exact Finset.Icc_subset_Icc (h t ht hns).1 (h t ht hns).2
  have h1 := first_pass_fold_invariant
    (Finset.Icc 1 (num_lines source_code)) tokens ∅ ∅ hS
    (Finset.Subset.refl ∅) (Finset.empty_subset _)
  have h2 := second_pass_fold_invariant
    (Finset.Icc 1 (num_lines source_code)) tokens
    (tokens.foldl first_pass_step (∅, ∅)).1 ∅ hS
    (Finset.empty_subset _) h1.2
  refine ⟨Nat.zero_le _, ?_, ?_⟩
  · show ((tokens.foldl first_pass_step (∅, ∅)).2
          ∪ (tokens.foldl second_pass_step
              ((tokens.foldl first_pass_step (∅, ∅)).1, ∅)).2).card
        ≤ (tokens.foldl second_pass_step
            ((tokens.foldl first_pass_step (∅, ∅)).1, ∅)).1.card
    exact Finset.card_le_card
      (Finset.union_subset (h1.1.trans h2.2.2) h2.1)
  · show (tokens.foldl second_pass_step
          ((tokens.foldl first_pass_step (∅, ∅)).1, ∅)).1.card
        ≤ num_lines source_code
    calc (tokens.foldl second_pass_step
            ((tokens.foldl first_pass_step (∅, ∅)).1, ∅)).1.card
        ≤ (Finset.Icc 1 (num_lines source_code)).card :=
          Finset.card_le_card h2.2.1
      _ = num_lines source_code := by rw [Nat.card_Icc]; omega

/-- Witness for C5 at the concrete scenario token stream. -/
theorem C5_metric_inequalities_witness :
    0 ≤ (count_lines scenario_source scenario_tokens).2.2
      ∧ (count_lines scenario_source scenario_tokens).2.2
        ≤ (count_lines scenario_source scenario_tokens).2.1
      ∧ (count_lines scenario_source scenario_tokens).2.1
        ≤ (count_lines scenario_source scenario_tokens).1 :=
  C5_metric_inequalities scenario_source scenario_tokens (by decide)

/-- C6: on the source `# comment\n\n"""\nblock\n"""\n` (with the CPython
token stream), `count_lines` returns `total_lines = 5`,
`nonblank_lines = 4` — the nonblank set being exactly lines 1, 3, 4, 5 —
and `commented_lines = 4`. -/
theorem C6_end_to_end_scenario :
    count_lines scenario_source scenario_tokens = (5, 4, 4)
      ∧ (second_pass scenario_tokens (first_pass scenario_tokens).1).1
        = ({1, 3, 4, 5} : Finset Nat) := by
  refine ⟨by decide, by decide⟩

/-- C7: `analyze_file` returns `None` (never a partial tuple) with an
advisory log entry both on I/O failure of the read and on
parse/tokenization failure, letting none of these exceptions propagate;
when everything succeeds it returns the full 4-tuple
`(total_lines, nonblank_lines, statement_count, commented_lines)`. -/
theorem C7_analyze_file_boundary (read_result : Except PyExc String)
    (parse : String → Except PyExc Node)
    (tokenize : String → Except PyExc (List Tok))
    (pats : List (String → Bool)) :
    (∀ e : PyExc, read_result = Except.error e →
        e = PyExc.fileNotFound ∨ e = PyExc.osError →
        analyze_file read_result parse tokenize pats
          = Except.ok (none, [LogMsg.failed_to_open]))
      ∧ (∀ (src : String) (e : PyExc), read_result = Except.ok src →
          parse src = Except.error e →
          e = PyExc.syntaxError ∨ e = PyExc.tokenError →
          analyze_file read_result parse tokenize pats
            = Except.ok (none, [LogMsg.file_has_syntax_error]))
      ∧ (∀ (src : String) (root : Node) (n : Nat) (e : PyExc),
          read_result = Except.ok src → parse src = Except.ok root →
          count_statements_ast root pats = Except.ok n →
          tokenize src = Except.error e →
          e = PyExc.syntaxError ∨ e = PyExc.tokenError →
          analyze_file read_result parse tokenize pats
            = Except.ok (none, [LogMsg.file_has_syntax_error]))
      ∧ (∀ (src : String) (root : Node) (n : Nat) (toks : List Tok),
          read_result = Except.ok src → parse src = Except.ok root →
          count_statements_ast root pats = Except.ok n →
          tokenize src = Except.ok toks →
          analyze_file read_result parse tokenize pats
            = Except.ok (some ((count_lines src toks).1,
                (count_lines src toks).2.1, n,
                (count_lines src toks).2.2), [])) := by
  refine ⟨?_, ?_, ?_, ?_⟩
  · rintro e rfl (rfl | rfl) <;> rfl
  · rintro src e rfl hp (rfl | rfl) <;>
      simp [analyze_file, count_statements, hp]
  · rintro src root n e rfl hp hc ht (rfl | rfl) <;>
      simp [analyze_file, count_statements, hp, hc, ht]
  · rintro src root n toks rfl hp hc ht
    simp [analyze_file, count_statements, hp, hc, ht]

/-- Witness for C7 at concrete inputs: an I/O failure, a parse failure, a
tokenization failure, and a fully successful analysis. -/
theorem C7_analyze_file_boundary_witness :
    analyze_file (Except.error PyExc.osError) empty_parse
        (fun _ => Except.ok empty_tokens) []
      = Except.ok (none, [LogMsg.failed_to_open])
      ∧ analyze_file (Except.ok "(") (fun _ => Except.error PyExc.syntaxError)
          (fun _ => Except.ok empty_tokens) []
        = Except.ok (none, [LogMsg.file_has_syntax_error])
      ∧ analyze_file (Except.ok "(") empty_parse
          (fun _ => Except.error PyExc.tokenError) []
        = Except.ok (none, [LogMsg.file_has_syntax_error])
      ∧ analyze_file (Except.ok "") empty_parse
          (fun _ => Except.ok empty_tokens) []
        = Except.ok (some ((count_lines "" empty_tokens).1,
            (count_lines "" empty_tokens).2.1, 0,
            (count_lines "" empty_tokens).2.2), []) := by
  refine ⟨?_, ?_, ?_, ?_⟩
  · exact (C7_analyze_file_boundary (Except.error PyExc.osError) empty_parse
      (fun _ => Except.ok empty_tokens) []).1 PyExc.osError rfl (Or.inr rfl)
  · exact (C7_analyze_file_boundary (Except.ok "(")
      (fun _ => Except.error PyExc.syntaxError)
      (fun _ => Except.ok empty_tokens) []).2.1 "(" PyExc.syntaxError rfl rfl
      (Or.inl rfl)
  · exact (C7_analyze_file_boundary (Except.ok "(") empty_parse
      (fun _ => Except.error PyExc.tokenError) []).2.2.1 "("
      (Node.module []) 0 PyExc.tokenError rfl rfl rfl rfl (Or.inr rfl)
  · exact (C7_analyze_file_boundary (Except.ok "") empty_parse
      (fun _ => Except.ok empty_tokens) []).2.2.2 "" (Node.module []) 0
      empty_tokens rfl rfl rfl rfl

/-- C8 counterexample: a statement node of a kind the traversal does not
recognize does NOT raise the defensive assertion.  `ast.Match` is a
statement, so `assert isinstance(node, ast.stmt)` succeeds; counting a
module whose single top-level statement is a match statement returns 1
(the match node's own contribution, body skipped) instead of failing. -/
theorem C8_unrecognized_statement_counterexample :
    count_statements
        (fun _ => Except.ok (Node.module [Node.matchStmt [Node.passStmt]]))
        "match x:\n    case _:\n        pass\n" []
      = Except.ok 1
      ∧ count_statements
          (fun _ => Except.ok (Node.module [Node.matchStmt [Node.passStmt]]))
          "match x:\n    case _:\n        pass\n" []
        ≠ Except.error PyExc.assertionError :=
  ⟨rfl, fun h => Except.noConfusion h⟩

/-- C8 (amended): the defensive assertion fires only for a node that is
not a statement node at all; an unrecognized statement kind (such as a
match statement) passes the assertion and is silently treated as a leaf —
counted as one statement, its body not traversed.  When the assertion
failure does arise it is not caught at the `analyze_file` boundary and
terminates the run instead of producing an absent result. -/
theorem C8_assertion_behavior (pats : List (String → Bool)) :
    (∀ body : List Node,
        count_statements_ast (Node.module [Node.matchStmt body]) pats
          = Except.ok 1)
      ∧ tranverse_ast_stmt (node_effective_count pats) 0 Node.exprNode
        = Except.error PyExc.assertionError
      ∧ (∀ (read_result : Except PyExc String)
          (parse : String → Except PyExc Node)
          (tokenize : String → Except PyExc (List Tok))
          (src : String) (root : Node),
          read_result = Except.ok src → parse src = Except.ok root →
          count_statements_ast root pats = Except.error PyExc.assertionError →
          analyze_file read_result parse tokenize pats
            = Except.error PyExc.assertionError) := by
  refine ⟨fun body => rfl, rfl, ?_⟩
  rintro rr parse tok src root rfl hp hc
  simp [analyze_file, count_statements, hp, hc]

/-- Witness for C8 (amended) at concrete inputs: a match statement is
counted without failure, and an assertion failure raised inside the
traversal propagates through `analyze_file`. -/
theorem C8_assertion_behavior_witness :
    count_statements_ast (Node.module [Node.matchStmt [Node.passStmt]]) []
      = Except.ok 1
      ∧ analyze_file (Except.ok "x")
          (fun _ => Except.ok (Node.module [Node.exprNode]))
          (fun _ => Except.ok []) []
        = Except.error PyExc.assertionError := by
  refine ⟨(C8_assertion_behavior []).1 [Node.passStmt], ?_⟩
  exact (C8_assertion_behavior []).2.2 (Except.ok "x")
    (fun _ => Except.ok (Node.module [Node.exprNode])) (fun _ => Except.ok [])
    "x" (Node.module [Node.exprNode]) rfl rfl rfl

/-- C9: `count_statements` reads the source text only through the parser,
so any rewriting of the source that leaves the parse result unchanged —
in particular inserting blank lines or comment lines, which the grammar
discards — leaves the returned statement count unchanged. -/
theorem C9_formatting_invariance (parse : String → Except PyExc Node)
    (reformat : String → String)
    (hpreserve : ∀ s : String, parse (reformat s) = parse s)
    (pats : List (String → Bool)) (source_code : String) :
    count_statements parse (reformat source_code) pats
      = count_statements parse source_code pats := by
  unfold count_statements
  rw [hpreserve]

/-- A re-formatting that prefixes a comment line and a blank line. -/
def comment_insertion : String → String :=
  fun s => String.append "# note\n\n" s

/-- A parse oracle for which `comment_insertion` is parse-preserving, as
`ast.parse` is: both `x = 1\n` and `# note\n\nx = 1\n` parse to a module
holding a single assignment. -/
def fixed_parse : String → Except PyExc Node :=
  fun _ => Except.ok (Node.module [Node.assignStmt])

/-- Witness for C9 at a concrete input. -/
theorem C9_formatting_invariance_witness :
    count_statements fixed_parse (comment_insertion "x = 1\n") []
      = count_statements fixed_parse "x = 1\n" [] :=
  C9_formatting_invariance fixed_parse comment_insertion (fun _ => rfl) []
    "x = 1\n"

/-- C10: on the empty source text `count_lines` returns `(0, 0, 0)` (the
CPython token stream of `""` holds only structural tokens) and
`count_statements` returns 0 (the parse is a module with an empty body),
so `analyze_file` on an empty readable file yields the full tuple
`(0, 0, 0, 0)` rather than an absent result or an error. -/
theorem C10_empty_source :
    count_lines "" empty_tokens = (0, 0, 0)
      ∧ count_statements empty_parse "" [] = Except.ok 0
      ∧ analyze_file (Except.ok "") empty_parse
          (fun _ => Except.ok empty_tokens) []
        = Except.ok (some (0, 0, 0, 0), []) :=
  ⟨by decide, rfl, rfl⟩
